import Mathlib

/-!
Shallow embedding of the racomo-guardian-backend server (Node/Express +
Postgres).  The repository holds the SQL schema and two variants of
`server.js`; the embedding follows the fuller variant (the one with
auto-migration and request-body validation), which the second variant is a
stripped copy of.  Postgres tables become Lean lists of records, `uuid`
primary keys become a fresh-`Nat` counter, and each route handler becomes a
function from the database and the request to the new database and the JSON
response.  External libraries are modelled by their contracts:
* bcryptjs: an injective one-way function; `compare p h` holds exactly when
  `h` was produced by hashing `p`;
* jsonwebtoken: `sign` packages the claims together with the signing secret,
  `verify` returns the claims exactly when the secrets match (expiry and
  tampering are covered by the abstract verifier used for `requireAuth`).
JavaScript truthiness on optional body fields is modelled explicitly:
a missing field is `none`, an empty string and the number 0 are falsy.
-/

namespace Guardian

/-- JS truthiness of an optional string field: `undefined`/absent and `""` are falsy. -/
def truthyStr : Option String → Bool
  | none => false
  | some s => s ≠ ""

/-- JS truthiness of an optional numeric field: `undefined`/absent and `0` are falsy. -/
def truthyInt : Option Int → Bool
  | none => false
  | some n => n ≠ 0

/-- `x || null` on an optional numeric field (`yob || null` in POST /children). -/
def intOrNull : Option Int → Option Int
  | none => none
  | some n => if n = 0 then none else some n

/-- `x || null` on an optional id field (`child_id || null` in POST /events);
ids are modelled as `Nat`, with `0` standing for a falsy id value. -/
def natOrNull : Option Nat → Option Nat
  | none => none
  | some n => if n = 0 then none else some n

/-- Model of `String.prototype.toLowerCase()` (`email.toLowerCase()` in the
handlers), written over the character list so that it evaluates inside
`decide`. -/
def jsToLower (s : String) : String := ⟨s.data.map Char.toLower⟩

/-- Model of `bcrypt.hash(password, 10)`: an injective one-way function
(the salt and work factor do not matter for the properties proved here). -/
def bcryptHash (password : String) : String := "2a10" ++ password

/-- Model of `bcrypt.compare(password, hash)`: true exactly when `hash` is
the hash of `password`. -/
def bcryptCompare (password hash : String) : Bool := bcryptHash password == hash

/-- The claims `jwt.sign` puts in a token and `jwt.verify` returns:
`{ fid, email }` (server.js `signToken`). -/
structure Claims where
  fid : Nat
  email : String
  deriving Repr, DecidableEq

/-- Model of a signed JWT: the claims together with the secret they were
signed with.  The 7-day expiry is not modelled here; an expired or tampered
token is covered by the abstract verifier in `requireAuth`. -/
structure Token where
  fid : Nat
  email : String
  secret : String
  deriving Repr, DecidableEq

/-- `signToken(family)` = `jwt.sign({ fid: family.id, email: family.email }, JWT_SECRET, ...)`. -/
def signToken (fid : Nat) (email secret : String) : Token :=
  ⟨fid, email, secret⟩

/-- `jwt.verify(token, secret)` on a token produced by `signToken`:
returns the claims when the secrets match, fails otherwise. -/
def jwtVerify (t : Token) (secret : String) : Option Claims :=
  if t.secret = secret then some ⟨t.fid, t.email⟩ else none

/-- A row of the `families` table (id, unique email, password_hash). -/
structure Family where
  id : Nat
  email : String
  password_hash : String
  deriving Repr, DecidableEq

/-- A row of the `children` table (id, family_id, name, nullable yob). -/
structure Child where
  id : Nat
  family_id : Nat
  name : String
  yob : Option Int
  deriving Repr, DecidableEq

/-- A row of the `rules` table.  Note the schema declares a unique
constraint only on the primary key `id`: there is none on
`(family_id, platform)`. -/
structure Rule where
  id : Nat
  family_id : Nat
  platform : String
  daily_minutes : Int
  bedtime : String
  whitelist : List String
  deriving Repr, DecidableEq

/-- A row of the `usage_events` table (family_id references families
ON DELETE CASCADE, child_id references children ON DELETE SET NULL);
the jsonb payload is kept opaque as its serialized text. -/
structure UsageEvent where
  id : Nat
  family_id : Nat
  child_id : Option Nat
  platform : String
  kind : String
  payload : String
  deriving Repr, DecidableEq

/-- The database: the four tables created by `migrate()`, plus the
generator of fresh primary keys (modelling `gen_random_uuid()` /
`bigserial`: fresh ids never collide with existing rows). -/
structure DB where
  families : List Family
  children : List Child
  rules : List Rule
  events : List UsageEvent
  nextId : Nat
  deriving Repr, DecidableEq

/-- `SELECT ... FROM families WHERE email=$1` followed by `rows[0]`. -/
def findFamilyByEmail (db : DB) (e : String) : Option Family :=
  (db.families.filter (fun f => f.email == e)).head?

/-- Response of POST /auth/register: `{token}` on success, otherwise a
400 body `{error}`. -/
inductive RegisterResult where
  | ok (token : Token)
  | badRequest (error : String)
  deriving Repr, DecidableEq

/-- HTTP status of a register response (`res.json` defaults to 200). -/
def RegisterResult.status : RegisterResult → Nat
  | .ok _ => 200
  | .badRequest _ => 400

/-- Response of POST /auth/login: `{token}` or a 401 body `{error}`. -/
inductive LoginResult where
  | ok (token : Token)
  | unauthorized (error : String)
  deriving Repr, DecidableEq

/-- HTTP status of a login response. -/
def LoginResult.status : LoginResult → Nat
  | .ok _ => 200
  | .unauthorized _ => 401

/-- `POST /auth/register`: validates presence of email and password, hashes
the password, inserts the family with the email lowercased and returns a
signed token; any store failure (in particular the unique-email violation)
is caught and answered with the fixed 400 body `{error:'email exists?'}`. -/
def register (db : DB) (secret : String) (email password : Option String) :
    DB × RegisterResult :=
  if ¬ truthyStr email ∨ ¬ truthyStr password then
    (db, .badRequest "email & password required")
  else
    let e := jsToLower (email.getD "")
    if db.families.any (fun f => f.email == e) then
      (db, .badRequest "email exists?")
    else
      let fam : Family := ⟨db.nextId, e, bcryptHash (password.getD "")⟩
      ({ db with families := db.families ++ [fam], nextId := db.nextId + 1 },
       .ok (signToken fam.id fam.email secret))

/-- `POST /auth/login`: looks up the lowercased email, compares the
password against the stored hash, and answers the same
`{error:'invalid credentials'}` body (401) whether the email is unknown or
the password mismatches.  The password field is passed straight to
`bcrypt.compare`, so it is modelled as a plain string. -/
def login (db : DB) (secret : String) (email : Option String) (password : String) :
    LoginResult :=
  let e := jsToLower (email.getD "")
  match findFamilyByEmail db e with
  | none => .unauthorized "invalid credentials"
  | some fam =>
    if bcryptCompare password fam.password_hash then
      .ok (signToken fam.id fam.email secret)
    else
      .unauthorized "invalid credentials"

/-- Response of POST /children: the new record `{id,name,yob}` or 400. -/
inductive ChildrenResult where
  | ok (id : Nat) (name : String) (yob : Option Int)
  | badRequest (error : String)
  deriving Repr, DecidableEq

/-- HTTP status of a POST /children response. -/
def ChildrenResult.status : ChildrenResult → Nat
  | .ok _ _ _ => 200
  | .badRequest _ => 400

/-- `POST /children` (authenticated, `fid` comes from the verified token):
rejects a missing/empty name with 400 `{error:'name required'}`, otherwise
inserts `(family_id, name, yob || null)` and returns the new row's
`id,name,yob`. -/
def childrenPost (db : DB) (fid : Nat) (name : Option String) (yob : Option Int) :
    DB × ChildrenResult :=
  if ¬ truthyStr name then
    (db, .badRequest "name required")
  else
    let c : Child := ⟨db.nextId, fid, name.getD "", intOrNull yob⟩
    ({ db with children := db.children ++ [c], nextId := db.nextId + 1 },
     .ok c.id c.name c.yob)

/-- Response of POST /rules: the inserted/updated rule row, a 400
validation body, or the empty response produced when the UPDATE fallback
matches no row (`res.json(up.rows[0])` with `up.rows` empty). -/
inductive RulesResult where
  | ok (r : Rule)
  | badRequest (error : String)
  | empty
  deriving Repr, DecidableEq

/-- HTTP status of a POST /rules response. -/
def RulesResult.status : RulesResult → Nat
  | .ok _ => 200
  | .badRequest _ => 400
  | .empty => 200

/-- The INSERT of POST /rules runs `ON CONFLICT DO NOTHING` with no conflict
target, so it conflicts exactly when some unique constraint is violated.
The only unique constraint the schema declares on `rules` is the primary key
`id` — the schema has no `UNIQUE (family_id, platform)`. -/
def ruleInsertConflicts (db : DB) (id : Nat) : Bool :=
  db.rules.any (fun r => r.id == id)

/-- `POST /rules` (authenticated): validates that platform, daily_minutes
and bedtime are truthy, then tries
`INSERT ... ON CONFLICT DO NOTHING RETURNING ...`; when the insert returns
no row it falls back to
`UPDATE rules SET ... WHERE family_id=$1 AND platform=$2 RETURNING ...`.
`whitelist` defaults to `[]` via `JSON.stringify(whitelist || [])`. -/
def rulesPost (db : DB) (fid : Nat) (platform : Option String)
    (daily_minutes : Option Int) (bedtime : Option String)
    (whitelist : Option (List String)) : DB × RulesResult :=
  if ¬ truthyStr platform ∨ ¬ truthyInt daily_minutes ∨ ¬ truthyStr bedtime then
    (db, .badRequest "platform, daily_minutes, bedtime required")
  else
    let p := platform.getD ""
    let dm := daily_minutes.getD 0
    let bt := bedtime.getD ""
    let wl := whitelist.getD []
    if ruleInsertConflicts db db.nextId then
      let rules' := db.rules.map (fun r =>
        if r.family_id == fid && r.platform == p then
          { r with daily_minutes := dm, bedtime := bt, whitelist := wl }
        else r)
      let db' := { db with rules := rules' }
      match (rules'.filter (fun r => r.family_id == fid && r.platform == p)).head? with
      | some r => (db', .ok r)
      | none => (db', .empty)
    else
      let newRule : Rule := ⟨db.nextId, fid, p, dm, bt, wl⟩
      ({ db with rules := db.rules ++ [newRule], nextId := db.nextId + 1 },
       .ok newRule)

/-- Number of rule rows stored for a (family, platform) pair. -/
def countRulesFor (db : DB) (fid : Nat) (p : String) : Nat :=
  (db.rules.filter (fun r => r.family_id == fid && r.platform == p)).length

/-- Response of POST /events: `{ok:true}`, a 400 validation body, or a
store error (the foreign key on child_id fails and the handler has no
try/catch). -/
inductive EventsResult where
  | ok
  | badRequest (error : String)
  | storeError
  deriving Repr, DecidableEq

/-- `POST /events` (authenticated): requires truthy platform and kind, then
inserts `(family_id, child_id || null, platform, kind, payload || {})`.
A non-null child_id must reference an existing child (the foreign key
`child_id REFERENCES children(id)`), otherwise the insert fails. -/
def eventsPost (db : DB) (fid : Nat) (platform kind : Option String)
    (payload : Option String) (child_id : Option Nat) : DB × EventsResult :=
  if ¬ truthyStr platform ∨ ¬ truthyStr kind then
    (db, .badRequest "platform & kind required")
  else
    let cid := natOrNull child_id
    let fkOk := match cid with
      | none => true
      | some c => db.children.any (fun ch => ch.id == c)
    if fkOk then
      let ev : UsageEvent :=
        ⟨db.nextId, fid, cid, platform.getD "", kind.getD "", payload.getD "{}"⟩
      ({ db with events := db.events ++ [ev], nextId := db.nextId + 1 }, .ok)
    else
      (db, .storeError)

/-- The policy response body `{daily_minutes, bedtime, whitelist}`. -/
structure PolicyResp where
  daily_minutes : Int
  bedtime : String
  whitelist : List String
  deriving Repr, DecidableEq

/-- `req.query.platform || 'youtube'`: an absent (or empty, hence falsy)
platform query parameter defaults to "youtube". -/
def resolvePlatform (q : Option String) : String :=
  match q with
  | none => "youtube"
  | some p => if p = "" then "youtube" else p

/-- `GET /policy` (authenticated): selects the rule for the family and the
resolved platform and returns its fields, or the hardcoded default
`{daily_minutes:45, bedtime:'21:00', whitelist:[]}` when no row matches. -/
def policyGet (db : DB) (fid : Nat) (q : Option String) : PolicyResp :=
  let platform := resolvePlatform q
  match (db.rules.filter (fun r => r.family_id == fid && r.platform == platform)).head? with
  | some r => ⟨r.daily_minutes, r.bedtime, r.whitelist⟩
  | none => ⟨45, "21:00", []⟩

/-- Outcome of the `requireAuth` middleware: either an early 401 JSON
response, or the handler runs with `req.user` set to the verified claims. -/
inductive AuthOutcome where
  | rejected (status : Nat) (error : String)
  | ok (claims : Claims)
  deriving Repr, DecidableEq

/-- `h.startsWith(p)`, written over the character lists so that it
evaluates inside `decide`. -/
def jsStartsWith (s p : String) : Bool := s.data.take p.data.length == p.data

/-- `h.slice(n)` (drop the first n characters), over the character list. -/
def jsSlice (s : String) (n : Nat) : String := ⟨s.data.drop n⟩

/-- `const token = h.startsWith('Bearer ') ? h.slice(7) : null`. -/
def extractToken (h : String) : Option String :=
  if jsStartsWith h "Bearer " then some (jsSlice h 7) else none

/-- `requireAuth` middleware.  The raw token is a string; verification
(`jwt.verify`) is abstracted as a function returning the claims or failing
(covering invalid signatures and expired tokens).  The header defaults to
`''` when absent; `!token` also treats the empty sliced token as missing. -/
def requireAuth (header : Option String) (verify : String → Option Claims) :
    AuthOutcome :=
  match extractToken (header.getD "") with
  | none => .rejected 401 "missing token"
  | some t =>
    if t = "" then .rejected 401 "missing token"
    else
      match verify t with
      | some c => .ok c
      | none => .rejected 401 "invalid token"

/-- Ids of the children of family `fid` (the rows a `DELETE FROM families`
cascades into). -/
def deadChildIds (db : DB) (fid : Nat) : List Nat :=
  (db.children.filter (fun c => c.family_id == fid)).map (·.id)

/-- `ON DELETE SET NULL` applied to one usage_events row: null the child
reference when the referenced child is among the deleted ones. -/
def nullDeadChild (dead : List Nat) (e : UsageEvent) : UsageEvent :=
  match e.child_id with
  | some cid => if dead.contains cid then { e with child_id := none } else e
  | none => e

/-- Store-level `DELETE FROM families WHERE id=fid`, following the schema's
foreign-key actions: `children.family_id` and `rules.family_id` are
`ON DELETE CASCADE`; `usage_events.family_id` is also `ON DELETE CASCADE`,
and `usage_events.child_id` is `ON DELETE SET NULL` for the cascaded child
deletions. -/
def deleteFamily (db : DB) (fid : Nat) : DB :=
  let dead := deadChildIds db fid
  { db with
    families := db.families.filter (fun f => f.id ≠ fid),
    children := db.children.filter (fun c => c.family_id ≠ fid),
    rules := db.rules.filter (fun r => r.family_id ≠ fid),
    events := (db.events.filter (fun e => e.family_id ≠ fid)).map (nullDeadChild dead) }

/-- The event-table effect claimed by the spec for a family deletion
(stated from the spec's words, for comparison with `deleteFamily`):
every usage_events row survives, with child references to deleted children
set to NULL. -/
def specDeleteFamilyEvents (db : DB) (fid : Nat) : List UsageEvent :=
  db.events.map (nullDeadChild (deadChildIds db fid))

/-! ## Helper lemmas -/

/-- A password always compares true against its own hash. -/
theorem bcryptCompare_hash_self (p : String) : bcryptCompare p (bcryptHash p) = true := by
  simp [bcryptCompare]

/-- The hash model is injective, so distinct passwords never compare true. -/
theorem bcryptHash_injective : Function.Injective bcryptHash := by
  intro a b h
  have hd := congrArg String.data h
  simp only [bcryptHash, String.data_append] at hd
  exact String.ext (List.append_cancel_left hd)

/-- Distinct passwords compare false against each other's hashes. -/
theorem bcryptCompare_ne (p q : String) (h : p ≠ q) :
    bcryptCompare p (bcryptHash q) = false := by
  simp only [bcryptCompare, beq_eq_false_iff_ne, ne_eq]
  exact fun hc => h (bcryptHash_injective hc)

/-! ## C1 -/

/-- A database holding exactly one registered family (id 0) and no rules. -/
def dbC1 : DB := ⟨[⟨0, "a@x.com", bcryptHash "pw123"⟩], [], [], [], 1⟩

/-- Claim C1 is falsified by the code.  The spec's invariant — after N sequential
POST /rules upserts for one (family, platform) pair exactly one rule row
exists, holding the last write — does not hold: the `rules` table has no
unique constraint on (family_id, platform), so the INSERT's
`ON CONFLICT DO NOTHING` never fires and every upsert inserts a fresh row.
Two sequential upserts for (family 0, "youtube") leave TWO rows, and the
UPDATE fallback is never reached.  The code's own comment ("emulate upsert
for per-family+platform") shows the claim states the intent. -/
theorem c1_sequential_upserts_duplicate_rows :
    countRulesFor
        ((rulesPost ((rulesPost dbC1 0 (some "youtube") (some 30) (some "21:00") none).1)
          0 (some "youtube") (some 40) (some "21:00") none).1) 0 "youtube" = 2 ∧
    ((rulesPost ((rulesPost dbC1 0 (some "youtube") (some 30) (some "21:00") none).1)
          0 (some "youtube") (some 40) (some "21:00") none).1).rules
      = [⟨1, 0, "youtube", 30, "21:00", []⟩, ⟨2, 0, "youtube", 40, "21:00", []⟩] ∧
    ruleInsertConflicts ((rulesPost dbC1 0 (some "youtube") (some 30) (some "21:00") none).1)
        ((rulesPost dbC1 0 (some "youtube") (some 30) (some "21:00") none).1).nextId
      = false := by
  decide

/-! ## C2 -/

/-- Two families (0 and 3); family 0 owns a child, a rule and a usage
event; family 3 owns a usage event that references family 0's child. -/
def dbC2 : DB :=
  ⟨[⟨0, "a@x.com", "h0"⟩, ⟨3, "b@y.com", "h1"⟩],
   [⟨1, 0, "Mia", some 2015⟩],
   [⟨4, 0, "youtube", 30, "21:00", []⟩],
   [⟨2, 0, some 1, "youtube", "start", "{}"⟩, ⟨5, 3, some 1, "roblox", "stop", "{}"⟩],
   6⟩

/-- Claim C2 counterexample: deleting family 0 does NOT leave its usage_events
rows in place with child references nulled — `usage_events.family_id` is
declared ON DELETE CASCADE, so family 0's event (id 2) is deleted outright;
only family 3's event survives (with its child reference nulled). -/
theorem c2_family_delete_removes_its_events :
    (deleteFamily dbC2 0).events ≠ specDeleteFamilyEvents dbC2 0 ∧
    (deleteFamily dbC2 0).events = [⟨5, 3, none, "roblox", "stop", "{}"⟩] ∧
    dbC2.events.length = 2 := by
  decide

/-- Claim C2 (amended): deleting a family cascades to delete its children rows,
its rules rows AND its usage_events rows; usage_events of other families
are kept, with child references to the deleted family's children set to
NULL. -/
theorem c2_deleteFamily_cascade (db : DB) (fid : Nat) :
    (∀ c ∈ (deleteFamily db fid).children, c.family_id ≠ fid) ∧
    (∀ r ∈ (deleteFamily db fid).rules, r.family_id ≠ fid) ∧
    (∀ e ∈ (deleteFamily db fid).events, e.family_id ≠ fid) ∧
    (∀ e ∈ db.events, e.family_id ≠ fid →
      nullDeadChild (deadChildIds db fid) e ∈ (deleteFamily db fid).events) := by
  refine ⟨?_, ?_, ?_, ?_⟩
  · intro c hc
    simp only [deleteFamily, List.mem_filter] at hc
    simpa using hc.2
  · intro r hr
    simp only [deleteFamily, List.mem_filter] at hr
    simpa using hr.2
  · intro e he
    simp only [deleteFamily, List.mem_map, List.mem_filter] at he
    obtain ⟨e₀, ⟨_, h₀⟩, hmap⟩ := he
    have : e.family_id = e₀.family_id := by
      subst hmap
      unfold nullDeadChild
      rcases e₀.child_id with _ | cid
      · rfl
      · dsimp only
        split <;> rfl
    rw [this]
    simpa using h₀
  · intro e he hne
    simp only [deleteFamily, List.mem_map]
    exact ⟨e, List.mem_filter.mpr ⟨he, by simpa using hne⟩, rfl⟩

/-- Concrete instance of the amended C2 theorem on `dbC2`: family 3's event
survives the deletion of family 0 with its child reference nulled. -/
theorem c2_deleteFamily_cascade_witness :
    nullDeadChild (deadChildIds dbC2 0) ⟨5, 3, some 1, "roblox", "stop", "{}"⟩
      ∈ (deleteFamily dbC2 0).events := by
  exact (c2_deleteFamily_cascade dbC2 0).2.2.2 ⟨5, 3, some 1, "roblox", "stop", "{}"⟩
    (by decide) (by decide)

/-! ## C3 -/

/-- Claim C3: GET /policy answers the hardcoded default
`{daily_minutes:45, bedtime:'21:00', whitelist:[]}` when no rule row
matches the family and the resolved platform (query parameter, defaulting
to "youtube"), and the stored rule's fields when one rule matches. -/
theorem c3_policy_default_and_rule (db : DB) (fid : Nat) (q : Option String) :
    (db.rules.filter (fun r => r.family_id == fid && r.platform == resolvePlatform q) = [] →
      policyGet db fid q = ⟨45, "21:00", []⟩) ∧
    (∀ ru, db.rules.filter (fun r => r.family_id == fid && r.platform == resolvePlatform q) = [ru] →
      policyGet db fid q = ⟨ru.daily_minutes, ru.bedtime, ru.whitelist⟩) := by
  constructor
  · intro h
    simp [policyGet, h]
  · intro ru h
    simp [policyGet, h]

/-- A family with one stored rule for "roblox" and none for "youtube". -/
def dbC3 : DB :=
  ⟨[⟨0, "a@x.com", "h"⟩], [], [⟨1, 0, "roblox", 30, "20:30", ["vid1"]⟩], [], 2⟩

/-- Concrete instance of C3: the stored "roblox" rule is returned, and the
"youtube" query with no stored rule gets the default. -/
theorem c3_policy_witness :
    policyGet dbC3 0 (some "roblox") = ⟨30, "20:30", ["vid1"]⟩ ∧
    policyGet dbC3 0 (some "youtube") = ⟨45, "21:00", []⟩ := by
  constructor
  · exact (c3_policy_default_and_rule dbC3 0 (some "roblox")).2
      ⟨1, 0, "roblox", 30, "20:30", ["vid1"]⟩ (by decide)
  · exact (c3_policy_default_and_rule dbC3 0 (some "youtube")).1 (by decide)

/-! ## C4 -/

/-- Claim C4: registering a fresh email returns a token for the new family;
login with the correct credentials returns a token that verifies (under the
shared secret) to the claims `{fid, email}` of that same family; login with
a wrong password and login with an unknown email both return the identical
401 body `{error:'invalid credentials'}`. -/
theorem c4_login_roundtrip (db : DB) (secret e p : String)
    (he : e ≠ "") (hp : p ≠ "")
    (hfresh : ∀ f ∈ db.families, f.email ≠ jsToLower e) :
    (register db secret (some e) (some p)).1.families
        = db.families ++ [⟨db.nextId, jsToLower e, bcryptHash p⟩] ∧
    (register db secret (some e) (some p)).2
        = .ok (signToken db.nextId (jsToLower e) secret) ∧
    jwtVerify (signToken db.nextId (jsToLower e) secret) secret
        = some ⟨db.nextId, jsToLower e⟩ ∧
    login (register db secret (some e) (some p)).1 secret (some e) p
        = .ok (signToken db.nextId (jsToLower e) secret) ∧
    (∀ p', p' ≠ p →
      login (register db secret (some e) (some p)).1 secret (some e) p'
        = .unauthorized "invalid credentials") ∧
    (∀ e' p', (∀ f ∈ (register db secret (some e) (some p)).1.families, f.email ≠ jsToLower e') →
      login (register db secret (some e) (some p)).1 secret (some e') p'
        = .unauthorized "invalid credentials") ∧
    LoginResult.status (.unauthorized "invalid credentials") = 401 := by
  have hany : (db.families.any fun f => f.email == jsToLower e) = false := by
    rw [List.any_eq_false]
    intro f hf
    simpa using hfresh f hf
  have hreg : register db secret (some e) (some p)
      = ({ db with families := db.families ++ [⟨db.nextId, jsToLower e, bcryptHash p⟩],
                   nextId := db.nextId + 1 },
         .ok (signToken db.nextId (jsToLower e) secret)) := by
    unfold register
    rw [if_neg (by simp [truthyStr, he, hp])]
    simp only [Option.getD_some]
    rw [if_neg (by simp [hany])]
  have hfe : db.families.filter (fun f => f.email == jsToLower e) = [] := by
    rw [List.filter_eq_nil_iff]
    intro f hf
    simpa using hfresh f hf
  have hfind : findFamilyByEmail (register db secret (some e) (some p)).1 (jsToLower e)
      = some ⟨db.nextId, jsToLower e, bcryptHash p⟩ := by
    rw [hreg]
    simp [findFamilyByEmail, List.filter_append, hfe]
  refine ⟨by rw [hreg], by rw [hreg], by simp [jwtVerify, signToken], ?_, ?_, ?_, rfl⟩
  · show login (register db secret (some e) (some p)).1 secret (some e) p = _
    unfold login
    simp only [Option.getD_some]
    rw [hfind]
    simp [bcryptCompare_hash_self]
  · intro p' hp'
    unfold login
    simp only [Option.getD_some]
    rw [hfind]
    simp [bcryptCompare_ne p' p hp']
  · intro e' p' hunk
    have hnone : findFamilyByEmail (register db secret (some e) (some p)).1 (jsToLower e')
        = none := by
      have hnil : (register db secret (some e) (some p)).1.families.filter
          (fun f => f.email == jsToLower e') = [] := by
        rw [List.filter_eq_nil_iff]
        intro f hf
        simpa using hunk f hf
      simp [findFamilyByEmail, hnil]
    unfold login
    simp only [Option.getD_some]
    rw [hnone]

/-- An empty database, for exercising registration from scratch. -/
def dbC4 : DB := ⟨[], [], [], [], 0⟩

/-- Concrete instance of C4: register `A@X.com`/`pw123` on an empty store,
then log in with the right password, a wrong password, and an unknown
email. -/
theorem c4_login_roundtrip_witness :
    (register dbC4 "sec" (some "A@X.com") (some "pw123")).2
        = .ok (signToken 0 (jsToLower "A@X.com") "sec") ∧
    login (register dbC4 "sec" (some "A@X.com") (some "pw123")).1 "sec"
        (some "A@X.com") "pw123"
        = .ok (signToken 0 (jsToLower "A@X.com") "sec") ∧
    login (register dbC4 "sec" (some "A@X.com") (some "pw123")).1 "sec"
        (some "A@X.com") "wrong"
        = .unauthorized "invalid credentials" ∧
    login (register dbC4 "sec" (some "A@X.com") (some "pw123")).1 "sec"
        (some "b@y.com") "pw123"
        = .unauthorized "invalid credentials" := by
  have h := c4_login_roundtrip dbC4 "sec" "A@X.com" "pw123" (by decide) (by decide)
    (by intro f hf; simp [dbC4] at hf)
  exact ⟨h.2.1, h.2.2.2.1, h.2.2.2.2.1 "wrong" (by decide),
    h.2.2.2.2.2.1 "b@y.com" "pw123" (by rw [h.1]; decide)⟩

/-! ## C5 -/

/-- Claim C5: registering a second time with an email equal to the first
one up to case (emails are lowercased before storage) hits the unique-email
constraint; the handler's catch-all answers the fixed 400 body
`{error:'email exists?'}` and the store is unchanged. -/
theorem c5_duplicate_email_registration (db : DB) (secret e1 p1 e2 p2 : String)
    (he1 : e1 ≠ "") (hp1 : p1 ≠ "") (he2 : e2 ≠ "") (hp2 : p2 ≠ "")
    (hcase : jsToLower e2 = jsToLower e1)
    (hfresh : ∀ f ∈ db.families, f.email ≠ jsToLower e1) :
    register (register db secret (some e1) (some p1)).1 secret (some e2) (some p2)
      = ((register db secret (some e1) (some p1)).1, .badRequest "email exists?") ∧
    RegisterResult.status
        (register (register db secret (some e1) (some p1)).1 secret
          (some e2) (some p2)).2
      = 400 := by
  have hany : (db.families.any fun f => f.email == jsToLower e1) = false := by
    rw [List.any_eq_false]
    intro f hf
    simpa using hfresh f hf
  have hreg : register db secret (some e1) (some p1)
      = ({ db with families := db.families ++ [⟨db.nextId, jsToLower e1, bcryptHash p1⟩],
                   nextId := db.nextId + 1 },
         .ok (signToken db.nextId (jsToLower e1) secret)) := by
    unfold register
    rw [if_neg (by simp [truthyStr, he1, hp1])]
    simp only [Option.getD_some]
    rw [if_neg (by simp [hany])]
  have hany2 : ((register db secret (some e1) (some p1)).1.families.any
      fun f => f.email == jsToLower e2) = true := by
    rw [hreg]
    simp [List.any_append, hcase]
  have hmain : register (register db secret (some e1) (some p1)).1 secret
      (some e2) (some p2)
      = ((register db secret (some e1) (some p1)).1, .badRequest "email exists?") := by
    conv_lhs => rw [register]
    rw [if_neg (by simp [truthyStr, he2, hp2])]
    simp only [Option.getD_some]
    rw [if_pos (by simp [hany2])]
  exact ⟨hmain, by rw [hmain]; rfl⟩

/-- Concrete instance of C5: `A@X.com` then `a@x.COM` on an empty store —
the second registration fails with the fixed conflict body. -/
theorem c5_duplicate_email_registration_witness :
    register (register (⟨[], [], [], [], 0⟩ : DB) "sec" (some "A@X.com") (some "pw1")).1
        "sec" (some "a@x.COM") (some "pw2")
      = ((register (⟨[], [], [], [], 0⟩ : DB) "sec" (some "A@X.com") (some "pw1")).1,
         .badRequest "email exists?") := by
  exact (c5_duplicate_email_registration (⟨[], [], [], [], 0⟩ : DB) "sec"
    "A@X.com" "pw1" "a@x.COM" "pw2" (by decide) (by decide) (by decide) (by decide)
    (by decide) (by intro f hf; simp at hf)).1

/-! ## C6 -/

/-- One registered family (id 0) and no rules, for exercising POST /rules
validation. -/
def dbC6 : DB := ⟨[⟨0, "a@x.com", "h"⟩], [], [], [], 1⟩

/-- Claim C6 counterexample: the validation is a JS truthiness check, so
`daily_minutes = -5` (present and truthy, but not a positive integer)
passes it; the INSERT is reached and stores the negative budget.  This
refutes "the insert/update statements are only reached when ...
daily_minutes is a positive integer". -/
theorem c6_negative_budget_reaches_insert :
    (rulesPost dbC6 0 (some "youtube") (some (-5)) (some "21:00") none).2
      = .ok ⟨1, 0, "youtube", -5, "21:00", []⟩ ∧
    (rulesPost dbC6 0 (some "youtube") (some (-5)) (some "21:00") none).1.rules
      = [⟨1, 0, "youtube", -5, "21:00", []⟩] ∧
    ¬ (0 < (-5 : Int)) := by
  decide

/-- Claim C6 (amended): POST /rules answers the 400 validation error
exactly when platform, daily_minutes or bedtime is missing or falsy (empty
string, zero); when all three are truthy the insert/update statements are
reached — truthiness does not require daily_minutes to be positive. -/
theorem c6_rules_validation (db : DB) (fid : Nat) (platform : Option String)
    (dm : Option Int) (bt : Option String) (wl : Option (List String)) :
    ((¬ truthyStr platform ∨ ¬ truthyInt dm ∨ ¬ truthyStr bt) →
      rulesPost db fid platform dm bt wl
        = (db, .badRequest "platform, daily_minutes, bedtime required")) ∧
    (truthyStr platform → truthyInt dm → truthyStr bt →
      ∀ msg, (rulesPost db fid platform dm bt wl).2 ≠ .badRequest msg) := by
  constructor
  · intro h
    unfold rulesPost
    rw [if_pos h]
  · intro h1 h2 h3 msg
    unfold rulesPost
    rw [if_neg (by simp [h1, h2, h3])]
    dsimp only
    split
    · split <;> simp
    · simp

/-- Concrete instance of the amended C6 theorem: a request without a
platform is rejected with the 400 validation body, and a fully-truthy
request is not. -/
theorem c6_rules_validation_witness :
    rulesPost dbC6 0 none (some 30) (some "21:00") none
      = (dbC6, .badRequest "platform, daily_minutes, bedtime required") ∧
    (rulesPost dbC6 0 (some "youtube") (some 30) (some "21:00") none).2
      ≠ .badRequest "platform, daily_minutes, bedtime required" := by
  exact ⟨(c6_rules_validation dbC6 0 none (some 30) (some "21:00") none).1
      (by simp [truthyStr]),
    (c6_rules_validation dbC6 0 (some "youtube") (some 30) (some "21:00") none).2
      (by decide) (by decide) (by decide) _⟩

/-! ## C7 -/

/-- Claim C7: POST /children answers 400 `{error:'name required'}` when the
name is missing or empty; with a non-empty name it inserts
`(family_id, name, yob || null)` and returns the new record's id, name and
yob. -/
theorem c7_children_create (db : DB) (fid : Nat) (name : Option String)
    (yob : Option Int) :
    (¬ truthyStr name →
      childrenPost db fid name yob = (db, .badRequest "name required")) ∧
    (∀ s, name = some s → s ≠ "" →
      childrenPost db fid name yob
        = ({ db with children := db.children ++ [⟨db.nextId, fid, s, intOrNull yob⟩],
                     nextId := db.nextId + 1 },
           .ok db.nextId s (intOrNull yob))) := by
  constructor
  · intro h
    unfold childrenPost
    rw [if_pos h]
  · rintro s rfl hs
    unfold childrenPost
    rw [if_neg (by simp [truthyStr, hs])]
    rfl

/-- One registered family (id 0) with no children yet. -/
def dbC7 : DB := ⟨[⟨0, "a@x.com", "h"⟩], [], [], [], 1⟩

/-- Concrete instance of C7: creating "Mia" (yob 2015) succeeds and echoes
the record; a request without a name is rejected. -/
theorem c7_children_create_witness :
    childrenPost dbC7 0 (some "Mia") (some 2015)
      = ({ dbC7 with children := [⟨1, 0, "Mia", some 2015⟩], nextId := 2 },
         .ok 1 "Mia" (some 2015)) ∧
    childrenPost dbC7 0 none (some 2015) = (dbC7, .badRequest "name required") := by
  constructor
  · exact (c7_children_create dbC7 0 (some "Mia") (some 2015)).2 "Mia" rfl (by decide)
  · exact (c7_children_create dbC7 0 none (some 2015)).1 (by simp [truthyStr])

/-! ## C8 -/

/-- Claim C8: for any Authorization header and any verifier, requireAuth
answers 401 `{error:'missing token'}` when no bearer token can be
extracted, 401 `{error:'invalid token'}` when the extracted token fails
verification, and otherwise passes the verified claims to the handler. -/
theorem c8_requireAuth_gate (header : Option String) (verify : String → Option Claims) :
    (extractToken (header.getD "") = none →
      requireAuth header verify = .rejected 401 "missing token") ∧
    (extractToken (header.getD "") = some "" →
      requireAuth header verify = .rejected 401 "missing token") ∧
    (∀ t, extractToken (header.getD "") = some t → t ≠ "" → verify t = none →
      requireAuth header verify = .rejected 401 "invalid token") ∧
    (∀ t c, extractToken (header.getD "") = some t → t ≠ "" → verify t = some c →
      requireAuth header verify = .ok c) := by
  refine ⟨?_, ?_, ?_, ?_⟩
  · intro h
    unfold requireAuth
    rw [h]
  · intro h
    unfold requireAuth
    rw [h]
    simp
  · intro t ht hne hv
    unfold requireAuth
    rw [ht]
    dsimp only
    rw [if_neg hne, hv]
  · intro t c ht hne hv
    unfold requireAuth
    rw [ht]
    dsimp only
    rw [if_neg hne, hv]

/-- Concrete instance of C8: a missing header, a header whose token the
verifier rejects, and a header whose token verifies to claims
`{fid 7, a@x.com}`. -/
theorem c8_requireAuth_gate_witness :
    requireAuth none (fun _ => some ⟨7, "a@x.com"⟩) = .rejected 401 "missing token" ∧
    requireAuth (some "Bearer abc") (fun _ => none) = .rejected 401 "invalid token" ∧
    requireAuth (some "Bearer abc") (fun _ => some ⟨7, "a@x.com"⟩) = .ok ⟨7, "a@x.com"⟩ := by
  refine ⟨(c8_requireAuth_gate none _).1 (by decide),
    (c8_requireAuth_gate (some "Bearer abc") _).2.2.1 "abc" (by decide) (by decide) rfl,
    (c8_requireAuth_gate (some "Bearer abc") _).2.2.2 "abc" ⟨7, "a@x.com"⟩
      (by decide) (by decide) rfl⟩

/-! ## C9 -/

/-- Claim C9: the handlers coerce falsy optional fields to SQL NULL:
POST /children with `yob` present but falsy (0) stores and returns a null
year-of-birth, and POST /events with a falsy `child_id` stores a null
child reference. -/
theorem c9_falsy_fields_coerced_to_null (db : DB) (fid : Nat) (s p k : String)
    (hs : s ≠ "") (hp : p ≠ "") (hk : k ≠ "") (payload : Option String) :
    (childrenPost db fid (some s) (some 0)).2 = .ok db.nextId s none ∧
    (⟨db.nextId, fid, s, none⟩ : Child) ∈ (childrenPost db fid (some s) (some 0)).1.children ∧
    (eventsPost db fid (some p) (some k) payload (some 0)).2 = .ok ∧
    (⟨db.nextId, fid, none, p, k, payload.getD "{}"⟩ : UsageEvent)
        ∈ (eventsPost db fid (some p) (some k) payload (some 0)).1.events := by
  have hch : childrenPost db fid (some s) (some 0)
      = ({ db with children := db.children ++ [⟨db.nextId, fid, s, none⟩],
                   nextId := db.nextId + 1 },
         .ok db.nextId s none) := by
    unfold childrenPost
    rw [if_neg (by simp [truthyStr, hs])]
    rfl
  have hev : eventsPost db fid (some p) (some k) payload (some 0)
      = ({ db with events := db.events ++ [⟨db.nextId, fid, none, p, k, payload.getD "{}"⟩],
                   nextId := db.nextId + 1 },
         .ok) := by
    unfold eventsPost
    rw [if_neg (by simp [truthyStr, hp, hk])]
    rfl
  refine ⟨by rw [hch], ?_, by rw [hev], ?_⟩
  · rw [hch]
    simp
  · rw [hev]
    simp

/-- One registered family (id 0), for exercising the falsy coercions. -/
def dbC9 : DB := ⟨[⟨0, "a@x.com", "h"⟩], [], [], [], 1⟩

/-- Concrete instance of C9: `yob: 0` is returned as null, and an event
with `child_id: 0` is stored with a null child reference. -/
theorem c9_falsy_fields_coerced_to_null_witness :
    (childrenPost dbC9 0 (some "Mia") (some 0)).2 = .ok 1 "Mia" none ∧
    (⟨1, 0, "Mia", none⟩ : Child) ∈ (childrenPost dbC9 0 (some "Mia") (some 0)).1.children ∧
    (eventsPost dbC9 0 (some "youtube") (some "start") none (some 0)).2 = .ok ∧
    (⟨1, 0, none, "youtube", "start", "{}"⟩ : UsageEvent)
        ∈ (eventsPost dbC9 0 (some "youtube") (some "start") none (some 0)).1.events := by
  exact c9_falsy_fields_coerced_to_null dbC9 0 "Mia" "youtube" "start"
    (by decide) (by decide) (by decide) none

/-! ## C10 -/

/-- Claim C10: requireAuth only extracts a token when the header starts
with the exact, case-sensitive string "Bearer " (trailing space included);
any other header form is answered 401 `{error:'missing token'}` for every
verifier — in particular the verifier is never consulted — and can never
reach the handler. -/
theorem c10_bearer_prefix_case_sensitive (header : Option String)
    (verify : String → Option Claims)
    (h : jsStartsWith (header.getD "") "Bearer " = false) :
    requireAuth header verify = .rejected 401 "missing token" ∧
    ∀ c, requireAuth header verify ≠ .ok c := by
  have hext : extractToken (header.getD "") = none := by
    unfold extractToken
    rw [h]
    rfl
  have hmain : requireAuth header verify = .rejected 401 "missing token" := by
    unfold requireAuth
    rw [hext]
  refine ⟨hmain, fun c hc => ?_⟩
  rw [hmain] at hc
  cases hc

/-- Concrete instance of C10: a lowercase "bearer " prefix and a raw token
are both rejected as missing even against a verifier that accepts every
token. -/
theorem c10_bearer_prefix_case_sensitive_witness :
    requireAuth (some "bearer abc") (fun _ => some ⟨7, "a@x.com"⟩)
      = .rejected 401 "missing token" ∧
    requireAuth (some "abc") (fun _ => some ⟨7, "a@x.com"⟩)
      = .rejected 401 "missing token" := by
  exact ⟨(c10_bearer_prefix_case_sensitive (some "bearer abc") _ (by decide)).1,
    (c10_bearer_prefix_case_sensitive (some "abc") _ (by decide)).1⟩

end Guardian
